import Mathlib

/-!
Shallow embedding of the PN532 UART host-side protocol driver (pn532.py).

The serial read side is modelled as a list of byte values (Nat, each < 256 on
real hardware); a read of n bytes takes up to n values from the front of the
list, exactly like the underlying stream read which may return fewer bytes
than requested. Each distinct raise site of the Python code becomes a
distinct error constructor. Python indexing that can go out of range is
modelled with optional lookup returning an IndexError value, and Python
slicing (which never raises) with drop and take.
-/

namespace PN532

/-- Error taxonomy: one constructor per distinct raise site of the code,
plus IndexError for out-of-range Python indexing. -/
inductive Err where
  | InvalidPayload
  | MalformedStart
  | LengthChecksumMismatch
  | PayloadChecksumMismatch
  | MissingFrameEnd
  | AckMismatch
  | TruncatedResponse
  | UnexpectedResponse
  | DeviceNotDetected
  | MultipleCardsDetected
  | UidTooLong
  | IndexError
deriving DecidableEq, Repr

deriving instance DecidableEq for Except

/-- The fixed 6-byte acknowledgement sentinel _ACK. -/
def ACK : List Nat := [0x00, 0x00, 0xFF, 0x00, 0xFF, 0x00]

/-- The fixed 3-byte frame start _FRAME_START (preamble + start code). -/
def FRAME_START : List Nat := [0x00, 0x00, 0xFF]

/-- Frame construction from the body of PN532Uart write frame code:
the assertion demands 1 < len(data) < 255, and the frame is
preamble, start code, length byte, length checksum, data, data checksum,
postamble. For a Python nonnegative integer x, the operation
(bitwise-not x) & 0xFF equals 255 - x % 256, and (-x) & 0xFF equals
(256 - x % 256) % 256. -/
def encode (data : List Nat) : Except Err (List Nat) :=
  if 1 < data.length ∧ data.length < 255 then
    let length := data.length
    let checksum := 0x00 + 0x00 + 0xFF + data.sum
    .ok ([0x00, 0x00, 0xFF, length % 256, (256 - length % 256) % 256] ++
          data ++ [255 - checksum % 256, 0x00])
  else .error .InvalidPayload

/-- Frame parsing from PN532Uart read frame code, over a stream of available
bytes. Returns the parse result together with the number of bytes consumed
from the stream. The first read takes 5 bytes (frame start plus length and
length checksum), the second takes frame length + 2 bytes (data, data
checksum, frame end). The data checksum test sums everything the second
read returned, including the final byte. Reading data[-1] from an empty
data buffer is a Python IndexError. -/
def read_frame (stream : List Nat) : Except Err (List Nat) × Nat :=
  let response := stream.take 5
  if response.length < 5 ∨ response.take 3 ≠ FRAME_START then
    (.error .MalformedStart, response.length)
  else
    let frame_len := response.getD 3 0
    let frame_checksum := response.getD 4 0
    if (frame_len + frame_checksum) % 256 ≠ 0 then
      (.error .LengthChecksumMismatch, 5)
    else
      let data := (stream.drop 5).take (frame_len + 2)
      if data.sum % 256 ≠ 0 then
        (.error .PayloadChecksumMismatch, 5 + data.length)
      else
        match data.getLast? with
        | none => (.error .IndexError, 5 + data.length)
        | some b =>
          if b ≠ 0x00 then (.error .MissingFrameEnd, 5 + data.length)
          else (.ok (data.take frame_len), 5 + data.length)

/-- The pure codec view of frame parsing: run the two reads over the raw
frame bytes themselves and keep only the result. -/
def decode (raw : List Nat) : Except Err (List Nat) :=
  (read_frame raw).1

/-- The outgoing command payload built at the top of call_function:
direction marker 0xD4, then command & 0xFF, then the parameter bytes. -/
def host_payload (command : Nat) (params : List Nat) : List Nat :=
  0xD4 :: command % 256 :: params

/-- Response validation from the tail of call_function: a response shorter
than 2 bytes is rejected, then byte 0 must be 0xD5 and byte 1 must be
command + 1, and the response is returned with the first two bytes
stripped. -/
def call_validate (command : Nat) (response : List Nat) : Except Err (List Nat) :=
  if response.length < 2 then .error .TruncatedResponse
  else if ¬ (response.getD 0 0 = 0xD5 ∧ response.getD 1 0 = command + 1) then
    .error .UnexpectedResponse
  else .ok (response.drop 2)

/-- The whole call_function exchange over a read stream: build the payload,
encode it (the write frame assertion), read 6 bytes and compare with the
acknowledgement sentinel, then read and parse the response frame and
validate it. Returns the result together with the number of stream bytes
consumed. -/
def call_function (command : Nat) (params : List Nat) (stream : List Nat) :
    Except Err (List Nat) × Nat :=
  match encode (host_payload command params) with
  | .error e => (.error e, 0)
  | .ok _frame =>
    let ack := stream.take 6
    if ack ≠ ACK then (.error .AckMismatch, ack.length)
    else
      match read_frame (stream.drop 6) with
      | (.error e, c) => (.error e, 6 + c)
      | (.ok response, c) => (call_validate command response, 6 + c)

/-- get_firmware_version given the frame payload the dispatcher parsed: run
the dispatcher validation for command 0x02, then the literal transcription
of the code, which tests the response against None before turning it into
a tuple. call_function always returns a byte sequence, never None, so the
option below is always some. -/
def get_firmware_version (framePayload : List Nat) : Except Err (List Nat) :=
  match call_validate 0x02 framePayload with
  | .error e => .error e
  | .ok response =>
    match (some response : Option (List Nat)) with
    | none => .error .DeviceNotDetected
    | some r => .ok r

/-- The card checks of read_passive_target on the dispatcher result:
response[0] must be 1, response[5] must be at most 7, and the UID is the
slice response[6 : 6 + response[5]]. The two indexing operations raise a
Python IndexError when the response is too short; the final slice cannot
raise. -/
def read_passive_target_validate (response : List Nat) : Except Err (List Nat) :=
  match response[0]? with
  | none => .error .IndexError
  | some r0 =>
    if r0 ≠ 0x01 then .error .MultipleCardsDetected
    else
      match response[5]? with
      | none => .error .IndexError
      | some r5 =>
        if r5 > 7 then .error .UidTooLong
        else .ok ((response.drop 6).take r5)

/-- read_passive_target given the frame payload the dispatcher parsed:
dispatcher validation for command 0x4A, then the card checks. -/
def poll_for_card_response (framePayload : List Nat) : Except Err (List Nat) :=
  match call_validate 0x4A framePayload with
  | .error e => .error e
  | .ok response => read_passive_target_validate response

/-! Helper lemmas about frame parsing. -/

/-- Once the first five bytes of a raw frame carry the fixed start sequence
and a length byte A whose checksum byte B satisfies the length check, the
parse is determined by the remaining bytes: the second read returns all of
them when there are at most A + 2, and the data checksum is taken over all
of them. -/
theorem read_frame_header_ok (A B : Nat) (rest : List Nat)
    (hB : (A + B) % 256 = 0) (hlen : rest.length ≤ A + 2) :
    read_frame (0x00 :: 0x00 :: 0xFF :: A :: B :: rest) =
      ((if rest.sum % 256 ≠ 0 then .error .PayloadChecksumMismatch
        else match rest.getLast? with
          | none => .error .IndexError
          | some b => if b ≠ 0x00 then .error .MissingFrameEnd else .ok (rest.take A)),
       5 + rest.length) := by
  have hdata : ((0x00 :: 0x00 :: 0xFF :: A :: B :: rest).drop 5).take (A + 2) = rest := by
    show rest.take (A + 2) = rest
    exact List.take_of_length_le hlen
  simp only [read_frame]
  rw [show (0x00 :: 0x00 :: 0xFF :: A :: B :: rest).take 5 = [0x00, 0x00, 0xFF, A, B] from rfl]
  rw [if_neg (by simp [FRAME_START])]
  rw [show ([0x00, 0x00, 0xFF, A, B] : List Nat).getD 3 0 = A from rfl,
      show ([0x00, 0x00, 0xFF, A, B] : List Nat).getD 4 0 = B from rfl]
  rw [if_neg (not_not_intro hB), hdata]
  by_cases hs : rest.sum % 256 = 0
  · rw [if_neg (not_not_intro hs), if_neg (not_not_intro hs)]
    cases hlast : rest.getLast? with
    | none => rfl
    | some b =>
      by_cases hb : b = 0x00
      · subst hb
        rfl
      · simp [hb]
  · rw [if_pos hs, if_pos hs]

/-- Parsing the exact frame shape built by encode recovers the payload. -/
theorem decode_frame_shape (A B C : Nat) (payload : List Nat)
    (hA : A = payload.length) (hB : (A + B) % 256 = 0)
    (hC : (payload.sum + C) % 256 = 0) :
    decode (0x00 :: 0x00 :: 0xFF :: A :: B :: (payload ++ [C, 0x00])) = .ok payload := by
  have hlen : (payload ++ [C, 0x00]).length ≤ A + 2 := by simp [hA]
  have hsum : (payload ++ [C, 0x00]).sum % 256 = 0 := by
    simp only [List.sum_append, List.sum_cons, List.sum_nil]
    omega
  have hlast : (payload ++ [C, 0x00]).getLast? = some 0x00 := by
    rw [show payload ++ [C, 0x00] = (payload ++ [C]) ++ [0x00] by simp]
    exact List.getLast?_concat _
  unfold decode
  rw [read_frame_header_ok A B _ hB hlen]
  show (if (payload ++ [C, 0x00]).sum % 256 ≠ 0 then Except.error Err.PayloadChecksumMismatch
    else match (payload ++ [C, 0x00]).getLast? with
      | none => Except.error Err.IndexError
      | some b => if b ≠ 0x00 then Except.error Err.MissingFrameEnd
        else Except.ok ((payload ++ [C, 0x00]).take A)) = Except.ok payload
  rw [if_neg (not_not_intro hsum), hlast]
  simp [List.take_left' hA.symm]

/-! Claim theorems. -/

/-- Claim C1: the frame assertion demands strictly more than 1 byte, so a
payload of length 1 is rejected and cannot round trip, against the claimed
domain of 1 to 254; on the lengths the code accepts, 2 to 254, encoding
followed by decoding returns the original payload. -/
theorem encode_decode_roundtrip :
    encode [0xAB] = .error .InvalidPayload ∧
    ∀ payload : List Nat, 2 ≤ payload.length → payload.length ≤ 254 →
      ∃ frame, encode payload = .ok frame ∧ decode frame = .ok payload := by
  refine ⟨by decide, ?_⟩
  intro payload h2 h254
  have hguard : 1 < payload.length ∧ payload.length < 255 := ⟨by omega, by omega⟩
  refine ⟨[0x00, 0x00, 0xFF, payload.length % 256, (256 - payload.length % 256) % 256] ++
      payload ++ [255 - (0x00 + 0x00 + 0xFF + payload.sum) % 256, 0x00], ?_, ?_⟩
  · unfold encode
    rw [if_pos hguard]
  · have hfr : [0x00, 0x00, 0xFF, payload.length % 256, (256 - payload.length % 256) % 256] ++
        payload ++ [255 - (0x00 + 0x00 + 0xFF + payload.sum) % 256, 0x00] =
        0x00 :: 0x00 :: 0xFF :: (payload.length % 256) ::
          ((256 - payload.length % 256) % 256) ::
          (payload ++ [255 - (0x00 + 0x00 + 0xFF + payload.sum) % 256, 0x00]) := by
      simp
    rw [hfr]
    exact decode_frame_shape _ _ _ payload (Nat.mod_eq_of_lt (by omega)) (by omega) (by omega)

/-- Claim C1 witness: the concrete evaluations behind the round trip
statement, at a payload of length 2. -/
theorem encode_decode_roundtrip_witness :
    encode [0xAB] = .error .InvalidPayload ∧
    (∃ frame, encode [0xD4, 0x02] = .ok frame ∧ decode frame = .ok [0xD4, 0x02]) :=
  ⟨encode_decode_roundtrip.1,
   encode_decode_roundtrip.2 [0xD4, 0x02] (by decide) (by decide)⟩

/-- Claim C2 counterexample: with the exact response bytes of the claim, the
stripped response has 0xBB at index 5, so the UID length check fires and the
poll fails with UidTooLong instead of returning the UID. -/
theorem poll_spec_bytes_give_uid_too_long :
    poll_for_card_response [0xD5, 0x4B, 0x01, 0x00, 0x00, 0x04, 0xAA, 0xBB, 0xCC, 0xDD] =
      .error .UidTooLong := by decide

/-- Claim C2 amended: the UID length byte sits at index 5 of the stripped
response, so five bytes must separate the command echo from the UID bytes;
with such a response the poll returns the UID. -/
theorem poll_correct_bytes_return_uid :
    poll_for_card_response
        [0xD5, 0x4B, 0x01, 0x00, 0x00, 0x00, 0x00, 0x04, 0xAA, 0xBB, 0xCC, 0xDD] =
      .ok [0xAA, 0xBB, 0xCC, 0xDD] := by decide

/-- Claim C3: the code compares the dispatcher result against None, which
call_function never returns, so empty or short response content is not
rejected: the function returns the tuple of however many bytes arrived,
including the empty tuple, instead of failing with DeviceNotDetected. -/
theorem get_firmware_version_accepts_short_content :
    get_firmware_version [0xD5, 0x03] = .ok [] ∧
    get_firmware_version [0xD5, 0x03, 0x32] = .ok [0x32] ∧
    get_firmware_version [0xD5, 0x03, 0x32, 0x01, 0x06, 0x07] = .ok [0x32, 0x01, 0x06, 0x07] := by
  refine ⟨by decide, by decide, by decide⟩

/-- Claim C4: the frame assertion is 1 < length < 255, so the empty payload
is rejected as claimed, but a payload of length 1 is rejected as well,
against the claim that lengths 1 to 254 succeed; length 2 passes. -/
theorem encode_rejects_length_one :
    encode [] = .error .InvalidPayload ∧
    encode [0xD4] = .error .InvalidPayload ∧
    (encode [0xD4, 0x02]).isOk = true := by
  refine ⟨by decide, by decide, by decide⟩

/-- Claim C5 counterexample: a frame with valid start, length 1 with valid
length checksum, payload byte 0x00 and trailing checksum 0x00 summing to 0
mod 256, and final byte 0x01 instead of the postamble fails with
PayloadChecksumMismatch, not MissingFrameEnd. -/
theorem decode_bad_final_byte_example :
    decode [0x00, 0x00, 0xFF, 0x01, 0xFF, 0x00, 0x00, 0x01] =
      .error .PayloadChecksumMismatch := by decide

/-- Claim C5 amended: the step (c) checksum sums the payload bytes, the
trailing checksum byte and the final byte together, so when payload plus
trailing checksum is 0 mod 256 and the final byte is a nonzero byte, the
parse fails at step (c) with PayloadChecksumMismatch; the MissingFrameEnd
branch is never reached for such frames. -/
theorem decode_bad_final_byte (A B C e : Nat) (payload : List Nat)
    (hA : A = payload.length) (hB : (A + B) % 256 = 0)
    (hC : (payload.sum + C) % 256 = 0) (he0 : e ≠ 0) (he : e ≤ 255) :
    decode (0x00 :: 0x00 :: 0xFF :: A :: B :: (payload ++ [C, e])) =
      .error .PayloadChecksumMismatch := by
  have hlen : (payload ++ [C, e]).length ≤ A + 2 := by simp [hA]
  have hsum : (payload ++ [C, e]).sum % 256 ≠ 0 := by
    simp only [List.sum_append, List.sum_cons, List.sum_nil]
    omega
  unfold decode
  rw [read_frame_header_ok A B _ hB hlen]
  show (if (payload ++ [C, e]).sum % 256 ≠ 0 then Except.error Err.PayloadChecksumMismatch
    else match (payload ++ [C, e]).getLast? with
      | none => Except.error Err.IndexError
      | some b => if b ≠ 0x00 then Except.error Err.MissingFrameEnd
        else Except.ok ((payload ++ [C, e]).take A)) = Except.error Err.PayloadChecksumMismatch
  rw [if_pos hsum]

/-- Claim C5 witness: the general statement applied to the concrete frame of
the counterexample. -/
theorem decode_bad_final_byte_witness :
    decode (0x00 :: 0x00 :: 0xFF :: 0x01 :: 0xFF :: ([0x00] ++ [0x00, 0x01])) =
      .error .PayloadChecksumMismatch :=
  decode_bad_final_byte 0x01 0xFF 0x00 0x01 [0x00]
    (by decide) (by decide) (by decide) (by decide) (by decide)

/-- Claim C6: when the six bytes read back differ from the acknowledgement
sentinel, including a short read, call_function fails with AckMismatch and
consumes only the bytes of the acknowledgement read, never reaching the
frame read. -/
theorem call_function_ack_mismatch (command : Nat) (params : List Nat) (stream : List Nat)
    (hp : params.length ≤ 252) (hack : stream.take 6 ≠ ACK) :
    call_function command params stream = (.error .AckMismatch, (stream.take 6).length) ∧
    (stream.take 6).length ≤ 6 := by
  constructor
  · have hlen : (host_payload command params).length = 2 + params.length := by
      simp only [host_payload, List.length_cons]
      omega
    have hok : ∃ f, encode (host_payload command params) = .ok f := by
      unfold encode
      rw [if_pos (by omega)]
      exact ⟨_, rfl⟩
    obtain ⟨f, hf⟩ := hok
    unfold call_function
    simp only [hf]
    rw [if_pos hack]
  · have h := List.length_take 6 stream
    omega

/-- Claim C6 witness: a stream whose first six bytes are not the sentinel. -/
theorem call_function_ack_mismatch_witness :
    call_function 0x02 [] [0x09, 0x09, 0x09, 0x09, 0x09, 0x09] =
      (.error .AckMismatch, (([0x09, 0x09, 0x09, 0x09, 0x09, 0x09] : List Nat).take 6).length) ∧
    (([0x09, 0x09, 0x09, 0x09, 0x09, 0x09] : List Nat).take 6).length ≤ 6 :=
  call_function_ack_mismatch 0x02 [] [0x09, 0x09, 0x09, 0x09, 0x09, 0x09]
    (by decide) (by decide)

/-- Claim C7: the dispatcher validation fails with TruncatedResponse on
fewer than 2 bytes, fails with UnexpectedResponse when byte 0 is not 0xD5
or byte 1 is not command + 1, and otherwise strips the first two bytes. -/
theorem call_validate_spec (command : Nat) (response : List Nat) :
    (response.length < 2 → call_validate command response = .error .TruncatedResponse) ∧
    (2 ≤ response.length → ¬ (response.getD 0 0 = 0xD5 ∧ response.getD 1 0 = command + 1) →
      call_validate command response = .error .UnexpectedResponse) ∧
    (2 ≤ response.length → response.getD 0 0 = 0xD5 → response.getD 1 0 = command + 1 →
      call_validate command response = .ok (response.drop 2)) := by
  refine ⟨?_, ?_, ?_⟩
  · intro h
    unfold call_validate
    rw [if_pos h]
  · intro h2 hbad
    unfold call_validate
    rw [if_neg (by omega), if_pos hbad]
  · intro h2 h0 h1
    unfold call_validate
    rw [if_neg (by omega), if_neg (not_not_intro ⟨h0, h1⟩)]

/-- Claim C7 witness: the three behaviors at concrete responses. -/
theorem call_validate_spec_witness :
    call_validate 0x02 [] = .error .TruncatedResponse ∧
    call_validate 0x02 [0x00, 0x03] = .error .UnexpectedResponse ∧
    call_validate 0x02 [0xD5, 0x03, 0x07] = .ok [0x07] := by
  refine ⟨(call_validate_spec 0x02 []).1 (by decide),
    (call_validate_spec 0x02 [0x00, 0x03]).2.1 (by decide) (by decide), ?_⟩
  exact (call_validate_spec 0x02 [0xD5, 0x03, 0x07]).2.2 (by decide) (by decide) (by decide)

/-- Claim C8 counterexample: a 7-byte response that passes both checks but
is too short for the declared UID length 4: the returned slice has length 1,
not the value at index 5. -/
theorem read_passive_short_slice_example :
    read_passive_target_validate [0x01, 0x00, 0x00, 0x00, 0x00, 0x04, 0xAA] = .ok [0xAA] ∧
    ([0xAA] : List Nat).length = 1 := by decide

/-- Claim C8 amended: on a response of at least 7 bytes the checks behave as
claimed and the result is the slice starting at index 6 bounded by the value
at index 5; that slice has length equal to the value at index 5 only when
the response holds at least 6 plus that value many bytes. -/
theorem read_passive_target_validate_spec (response : List Nat) (h7 : 7 ≤ response.length) :
    (response.getD 0 0 ≠ 0x01 →
      read_passive_target_validate response = .error .MultipleCardsDetected) ∧
    (response.getD 0 0 = 0x01 → 7 < response.getD 5 0 →
      read_passive_target_validate response = .error .UidTooLong) ∧
    (response.getD 0 0 = 0x01 → response.getD 5 0 ≤ 7 →
      read_passive_target_validate response = .ok ((response.drop 6).take (response.getD 5 0)) ∧
      (6 + response.getD 5 0 ≤ response.length →
        ((response.drop 6).take (response.getD 5 0)).length = response.getD 5 0)) := by
  have h0 : response[0]? = some (response.getD 0 0) := by
    rw [List.getElem?_eq_getElem (by omega), List.getD_eq_getElem _ _ (by omega)]
  have h5 : response[5]? = some (response.getD 5 0) := by
    rw [List.getElem?_eq_getElem (by omega), List.getD_eq_getElem _ _ (by omega)]
  refine ⟨?_, ?_, ?_⟩
  · intro hr0
    simp only [read_passive_target_validate, h0]
    rw [if_pos hr0]
  · intro hr0 hr5
    simp only [read_passive_target_validate, h0, h5]
    rw [if_neg (not_not_intro hr0), if_pos hr5]
  · intro hr0 hr5
    constructor
    · simp only [read_passive_target_validate, h0, h5]
      rw [if_neg (not_not_intro hr0), if_neg (by omega)]
    · intro hle
      rw [List.length_take, List.length_drop]
      omega

/-- Claim C8 witness: a 10-byte response with UID length 4 returns the full
4-byte UID. -/
theorem read_passive_target_validate_spec_witness :
    read_passive_target_validate [0x01, 0x00, 0x00, 0x00, 0x00, 0x04, 0xAA, 0xBB, 0xCC, 0xDD] =
      .ok [0xAA, 0xBB, 0xCC, 0xDD] ∧
    ([0xAA, 0xBB, 0xCC, 0xDD] : List Nat).length = 0x04 := by
  have h := (read_passive_target_validate_spec
    [0x01, 0x00, 0x00, 0x00, 0x00, 0x04, 0xAA, 0xBB, 0xCC, 0xDD] (by decide)).2.2
    (by decide) (by decide)
  exact ⟨h.1, h.2 (by decide)⟩

/-- Claim C9 counterexample: a 1-byte response with first byte 2 is shorter
than 6 bytes, yet the code fails with MultipleCardsDetected, an error of the
documented taxonomy, before reaching the unchecked index 5. -/
theorem read_passive_nonone_short_example :
    read_passive_target_validate [0x02] = .error .MultipleCardsDetected := by decide

/-- Claim C9 amended: for every dispatcher response shorter than 6 bytes
that is either empty or has first byte 1, the unchecked indexing at index 0
or index 5 raises an out-of-range indexing error outside the documented
taxonomy; a nonempty short response with first byte other than 1 instead
fails with MultipleCardsDetected. -/
theorem read_passive_short_response_index_error (response : List Nat)
    (hshort : response.length < 6)
    (h : response = [] ∨ response.getD 0 0 = 0x01) :
    read_passive_target_validate response = .error .IndexError := by
  rcases h with h | h
  · subst h
    rfl
  · cases response with
    | nil => rfl
    | cons r0 tail =>
      have hr0 : r0 = 0x01 := h
      have h5 : (r0 :: tail)[5]? = none := by
        rw [List.getElem?_eq_none]
        simp only [List.length_cons] at hshort ⊢
        omega
      simp only [read_passive_target_validate, List.getElem?_cons_zero, h5]
      rw [if_neg (not_not_intro hr0)]

/-- Claim C9 witness: a 3-byte response with first byte 1 hits the indexing
error. -/
theorem read_passive_short_response_index_error_witness :
    read_passive_target_validate [0x01, 0x00, 0x00] = .error .IndexError :=
  read_passive_short_response_index_error [0x01, 0x00, 0x00] (by decide) (Or.inr (by decide))

/-- Claim C10: each of the four public operations builds a payload of length
2 plus its argument count, namely 5, 2, 4 and 3 bytes, all strictly between
1 and 255, so the frame assertion passes and the InvalidPayload branch is
unreachable from the public operation surface. -/
theorem public_ops_payload_ok (card_baud : Nat) (_hbyte : card_baud ≤ 0xFF) :
    ((host_payload 0x14 [0x01, 0x14, 0x01]).length = 2 + 3 ∧
      (encode (host_payload 0x14 [0x01, 0x14, 0x01])).isOk = true) ∧
    ((host_payload 0x02 []).length = 2 + 0 ∧
      (encode (host_payload 0x02 [])).isOk = true) ∧
    ((host_payload 0x4A [0x01, card_baud]).length = 2 + 2 ∧
      (encode (host_payload 0x4A [0x01, card_baud])).isOk = true) ∧
    ((host_payload 0x52 [0x00]).length = 2 + 1 ∧
      (encode (host_payload 0x52 [0x00])).isOk = true) := by
  refine ⟨⟨by decide, by decide⟩, ⟨by decide, by decide⟩, ⟨?_, ?_⟩, ⟨by decide, by decide⟩⟩
  · simp [host_payload]
  · unfold encode
    rw [if_pos (show 1 < (host_payload 0x4A [0x01, card_baud]).length ∧
      (host_payload 0x4A [0x01, card_baud]).length < 255 by simp [host_payload])]
    rfl

/-- Claim C10 witness: the same at the default card type code 0x00. -/
theorem public_ops_payload_ok_witness :
    ((host_payload 0x14 [0x01, 0x14, 0x01]).length = 2 + 3 ∧
      (encode (host_payload 0x14 [0x01, 0x14, 0x01])).isOk = true) ∧
    ((host_payload 0x02 []).length = 2 + 0 ∧
      (encode (host_payload 0x02 [])).isOk = true) ∧
    ((host_payload 0x4A [0x01, 0x00]).length = 2 + 2 ∧
      (encode (host_payload 0x4A [0x01, 0x00])).isOk = true) ∧
    ((host_payload 0x52 [0x00]).length = 2 + 1 ∧
      (encode (host_payload 0x52 [0x00])).isOk = true) :=
  public_ops_payload_ok 0x00 (by decide)

end PN532
